import Mathlib

/-!
Shallow embedding of `src/lambda_function.py` (a Bedrock chatbot Lambda
handler) and proofs about the claims of its specification.

Python values that can appear in a request event or a parsed JSON body are
modelled by `PyVal`; Python exceptions relevant to the handler by `PyExn`.
External collaborators (the Bedrock runtime client and the DynamoDB table)
are modelled as explicit behaviour parameters, and the handler additionally
returns a trace of the history loads and store writes it performs.
-/

/-- A Python float, modelled as an exact decimal `mantissa * 10 ^ exponent10`
(only pass-through and equality of floats matter to this program, so the
representation is kept unevaluated rather than normalized). -/
structure PyFloat where
  mantissa : Int
  exponent10 : Int
deriving DecidableEq

/-- Python values as they occur in this program: the results of `json.loads`,
plus `bytes_v` standing for a non-JSON-serializable Python object (such as a
`bytes` value), which `json.dumps` rejects. -/
inductive PyVal where
  | none_v : PyVal
  | bool_v (b : Bool) : PyVal
  | int_v (n : Int) : PyVal
  | float_v (q : PyFloat) : PyVal
  | str_v (s : String) : PyVal
  | bytes_v (s : String) : PyVal
  | list_v (xs : List PyVal) : PyVal
  | dict_v (fields : List (String × PyVal)) : PyVal

/-- The Python exceptions this program can raise or handle.  `clientError`
models `botocore.exceptions.ClientError` with its error code and message;
`generic` models a plain `Exception(msg)`; `jsonDecodeError` models
`json.JSONDecodeError`. -/
inductive PyExn where
  | typeError (msg : String) : PyExn
  | valueError (msg : String) : PyExn
  | attributeError (msg : String) : PyExn
  | keyError (msg : String) : PyExn
  | indexError (msg : String) : PyExn
  | jsonDecodeError (msg : String) : PyExn
  | clientError (code : String) (msg : String) : PyExn
  | generic (msg : String) : PyExn
  | nameError (msg : String) : PyExn
deriving DecidableEq

/-- Python `str(e)` on an exception, as used by the f-strings of the source. -/
def exnStr : PyExn → String
  | .typeError m => m
  | .valueError m => m
  | .attributeError m => m
  | .keyError m => m
  | .indexError m => m
  | .jsonDecodeError m => m
  | .clientError c m => "An error occurred (" ++ c ++ ") when calling the InvokeModel operation: " ++ m
  | .generic m => m
  | .nameError m => m

/-- The Python type name of a value, used in error messages. -/
def pyTypeName : PyVal → String
  | .none_v => "NoneType"
  | .bool_v _ => "bool"
  | .int_v _ => "int"
  | .float_v _ => "float"
  | .str_v _ => "str"
  | .bytes_v _ => "bytes"
  | .list_v _ => "list"
  | .dict_v _ => "dict"

/-- Association lookup in a Python dict (first binding wins, as dict keys are
unique). -/
def lookupField : List (String × PyVal) → String → Option PyVal
  | [], _ => none
  | (k, v) :: fs, key => if k = key then some v else lookupField fs key

/-- Python `v.get(key, default)`: dict lookup with a default; raises
`AttributeError` when `v` is not a dict. -/
def pyGet (v : PyVal) (key : String) (dflt : PyVal) : Except PyExn PyVal :=
  match v with
  | .dict_v fs => .ok ((lookupField fs key).getD dflt)
  | _ => .error (.attributeError (pyTypeName v ++ " object has no attribute get"))

/-- Python `s.strip()` on a str: drop leading and trailing whitespace
characters. -/
def pyStripStr (s : String) : String :=
  String.mk (((s.data.dropWhile Char.isWhitespace).reverse.dropWhile Char.isWhitespace).reverse)

/-- Python `v.strip()`: whitespace trimming on a str; raises `AttributeError`
on any other type. -/
def pyStrip (v : PyVal) : Except PyExn String :=
  match v with
  | .str_v s => .ok (pyStripStr s)
  | _ => .error (.attributeError (pyTypeName v ++ " object has no attribute strip"))

/-- Python truthiness of a value, as used by `if session_id:` and
`if not message:`. -/
def pyTruthy : PyVal → Bool
  | .none_v => false
  | .bool_v b => b
  | .int_v n => n != 0
  | .float_v q => q.mantissa != 0
  | .str_v s => s != ""
  | .bytes_v s => s != ""
  | .list_v xs => !xs.isEmpty
  | .dict_v fs => !fs.isEmpty

/-- Python `v == lit` for a string literal `lit`: values of other types
compare unequal without error. -/
def pyEqStr (v : PyVal) (lit : String) : Bool :=
  match v with
  | .str_v s => s = lit
  | _ => false

/-- Python `str(v)` as needed for the f-strings of the source (only string
model ids reach them in practice). -/
def pyStrOf : PyVal → String
  | .none_v => "None"
  | .bool_v true => "True"
  | .bool_v false => "False"
  | .int_v n => toString n
  | .float_v q => toString q.mantissa ++ "e" ++ toString q.exponent10
  | .str_v s => s
  | .bytes_v s => s
  | .list_v _ => "<list>"
  | .dict_v _ => "<dict>"

/-- Python `needle in hay` on strings: contiguous-substring test. -/
def strContainsSub (hay needle : String) : Bool :=
  decide (needle.data <:+: hay.data)

/-- Python `needle in v` for a string `needle`: substring test on a str;
raises `TypeError` for non-iterable values (the only other shapes reaching
this program's `in` tests). -/
def pyContains (v : PyVal) (needle : String) : Except PyExn Bool :=
  match v with
  | .str_v s => .ok (strContainsSub s needle)
  | _ => .error (.typeError ("argument of type " ++ pyTypeName v ++ " is not iterable"))

/-- Python `v[key]` subscription with a string key: dict lookup raising
`KeyError` when absent, `TypeError` on non-dict values. -/
def pySubKey (v : PyVal) (key : String) : Except PyExn PyVal :=
  match v with
  | .dict_v fs =>
    match lookupField fs key with
    | some w => .ok w
    | none => .error (.keyError key)
  | _ => .error (.typeError (pyTypeName v ++ " is not subscriptable by str"))

/-- Python `v[i]` subscription with a non-negative integer index: list
indexing raising `IndexError` when out of range, `TypeError` otherwise. -/
def pySubIdx (v : PyVal) (i : Nat) : Except PyExn PyVal :=
  match v with
  | .list_v xs =>
    match xs.get? i with
    | some w => .ok w
    | none => .error (.indexError "list index out of range")
  | _ => .error (.typeError (pyTypeName v ++ " is not subscriptable by int"))

/-- The `ValueError` produced by Python `int(s)` on a non-numeric string. -/
def intParseError (s : String) : PyExn :=
  .valueError ("invalid literal for int with base 10: " ++ s)

/-- The `ValueError` produced by Python `float(s)` on a non-numeric string. -/
def floatParseError (s : String) : PyExn :=
  .valueError ("could not convert string to float: " ++ s)

/-- Accumulate decimal digits; `none` when a non-digit is met. -/
def digitsToNatAux : List Char → Nat → Option Nat
  | [], acc => some acc
  | c :: cs, acc => if c.isDigit then digitsToNatAux cs (acc * 10 + (c.toNat - 48)) else none

/-- Parse a non-empty all-digit character list. -/
def digitsToNat (cs : List Char) : Option Nat :=
  match cs with
  | [] => none
  | _ => digitsToNatAux cs 0

/-- Python `int(s)` on a string: optional sign and decimal digits after
trimming surrounding whitespace (underscore separators are not modelled). -/
def pyIntOfString (s : String) : Except PyExn Int :=
  let core : Option Int :=
    match (pyStripStr s).data with
    | '-' :: rest => (digitsToNat rest).map (fun n => -(n : Int))
    | '+' :: rest => (digitsToNat rest).map (fun n => (n : Int))
    | cs => (digitsToNat cs).map (fun n => (n : Int))
  match core with
  | some n => .ok n
  | none => .error (intParseError s)

/-- Parse an unsigned decimal such as `0.7` or `12` into an exact decimal. -/
def floatOfDigits (cs : List Char) : Option PyFloat :=
  match cs.span (fun c => c ≠ '.') with
  | (intPart, []) => (digitsToNat intPart).map (fun n => ⟨(n : Int), 0⟩)
  | (intPart, _ :: fracPart) =>
    match digitsToNat intPart, digitsToNat fracPart with
    | some n, some f =>
      some ⟨(n * 10 ^ fracPart.length + f : Nat), -(fracPart.length : Int)⟩
    | _, _ => none

/-- Python `float(s)` on a string: optional sign and a decimal literal after
trimming surrounding whitespace (exponents, `inf` and `nan` are not
modelled). -/
def pyFloatOfString (s : String) : Except PyExn PyFloat :=
  let core : Option PyFloat :=
    match (pyStripStr s).data with
    | '-' :: rest => (floatOfDigits rest).map (fun q => ⟨-q.mantissa, q.exponent10⟩)
    | '+' :: rest => floatOfDigits rest
    | cs => floatOfDigits cs
  match core with
  | some q => .ok q
  | none => .error (floatParseError s)

/-- Python `int(v)`: integers pass through, floats truncate toward zero,
booleans become 0/1, strings are parsed, other types raise `TypeError`. -/
def pyInt (v : PyVal) : Except PyExn Int :=
  match v with
  | .int_v n => .ok n
  | .float_v q =>
    .ok (if q.exponent10 ≥ 0 then q.mantissa * 10 ^ q.exponent10.toNat
         else q.mantissa.tdiv (10 ^ (-q.exponent10).toNat))
  | .bool_v b => .ok (if b then 1 else 0)
  | .str_v s => pyIntOfString s
  | _ => .error (.typeError ("int argument must be a string or a number, not " ++ pyTypeName v))

/-- Python `float(v)`: numbers pass through, booleans become 0/1, strings are
parsed, other types raise `TypeError`. -/
def pyFloat (v : PyVal) : Except PyExn PyFloat :=
  match v with
  | .float_v q => .ok q
  | .int_v n => .ok ⟨n, 0⟩
  | .bool_v b => .ok (if b then ⟨1, 0⟩ else ⟨0, 0⟩)
  | .str_v s => pyFloatOfString s
  | _ => .error (.typeError ("float argument must be a string or a number, not " ++ pyTypeName v))

mutual

/-- Whether `json.dumps` succeeds on a value: every reachable leaf must be a
JSON-serializable Python value (a `bytes_v` leaf makes `dumps` raise
`TypeError`). -/
def jsonDumpsOk : PyVal → Bool
  | .bytes_v _ => false
  | .list_v xs => jsonDumpsOkList xs
  | .dict_v fs => jsonDumpsOkFields fs
  | _ => true

/-- `jsonDumpsOk` over the elements of a list. -/
def jsonDumpsOkList : List PyVal → Bool
  | [] => true
  | x :: xs => jsonDumpsOk x && jsonDumpsOkList xs

/-- `jsonDumpsOk` over the values of a dict. -/
def jsonDumpsOkFields : List (String × PyVal) → Bool
  | [] => true
  | (_, v) :: fs => jsonDumpsOk v && jsonDumpsOkFields fs

end

/-- Skip JSON insignificant whitespace. -/
def jsonSkipWs : List Char → List Char
  | c :: cs => if c = ' ' ∨ c = '\t' ∨ c = '\n' ∨ c = '\r' then jsonSkipWs cs else c :: cs
  | [] => []

/-- Parse the remainder of a JSON string literal (the opening quote already
consumed), handling the standard escapes. -/
def jsonParseStr : Nat → List Char → List Char → Option (String × List Char)
  | 0, _, _ => none
  | _ + 1, _, [] => none
  | fuel + 1, acc, c :: rest =>
    if c = '"' then some (String.mk acc.reverse, rest)
    else if c = '\\' then
      match rest with
      | [] => none
      | e :: rest2 =>
        if e = '"' then jsonParseStr fuel ('"' :: acc) rest2
        else if e = '\\' then jsonParseStr fuel ('\\' :: acc) rest2
        else if e = '/' then jsonParseStr fuel ('/' :: acc) rest2
        else if e = 'n' then jsonParseStr fuel ('\n' :: acc) rest2
        else if e = 't' then jsonParseStr fuel ('\t' :: acc) rest2
        else if e = 'r' then jsonParseStr fuel ('\r' :: acc) rest2
        else if e = 'b' then jsonParseStr fuel (Char.ofNat 8 :: acc) rest2
        else if e = 'f' then jsonParseStr fuel (Char.ofNat 12 :: acc) rest2
        else none
    else jsonParseStr fuel (c :: acc) rest

/-- Parse a JSON number (integer or decimal, optional exponent) into
`int_v` or `float_v`. -/
def jsonParseNum (cs : List Char) : Option (PyVal × List Char) :=
  let (neg, cs1) : Bool × List Char :=
    match cs with
    | '-' :: rest => (true, rest)
    | _ => (false, cs)
  let (intDigits, cs2) := cs1.span Char.isDigit
  match digitsToNat intDigits with
  | none => none
  | some n =>
    let fracStep : Option (Option Nat × Nat × List Char) :=
      match cs2 with
      | '.' :: rest =>
        let (fd, r) := rest.span Char.isDigit
        match digitsToNat fd with
        | some f => some (some f, fd.length, r)
        | none => none
      | _ => some (none, 0, cs2)
    match fracStep with
    | none => none
    | some (fracN, fracLen, cs3) =>
      let expStep : Option (Option Int × List Char) :=
        match cs3 with
        | 'e' :: rest | 'E' :: rest =>
          let (esign, rest2) : Int × List Char :=
            match rest with
            | '-' :: r => (-1, r)
            | '+' :: r => (1, r)
            | r => (1, r)
          let (ed, r2) := rest2.span Char.isDigit
          match digitsToNat ed with
          | some e => some (some (esign * (e : Int)), r2)
          | none => none
        | _ => some (none, cs3)
      match expStep with
      | none => none
      | some (expN, cs4) =>
        match fracN, expN with
        | none, none =>
          some (.int_v (if neg then -(n : Int) else (n : Int)), cs4)
        | _, _ =>
          let mant : Int := (n * 10 ^ fracLen + fracN.getD 0 : Nat)
          some (.float_v ⟨if neg then -mant else mant, expN.getD 0 - (fracLen : Int)⟩, cs4)

mutual

/-- Recursive-descent parser for one JSON value, fuelled by the input
length; mirrors what `json.loads` accepts. -/
def jsonParseVal : Nat → List Char → Option (PyVal × List Char)
  | 0, _ => none
  | fuel + 1, input =>
    match jsonSkipWs input with
    | [] => none
    | c :: rest =>
      if c = 'n' then
        match rest with
        | 'u' :: 'l' :: 'l' :: r => some (.none_v, r)
        | _ => none
      else if c = 't' then
        match rest with
        | 'r' :: 'u' :: 'e' :: r => some (.bool_v true, r)
        | _ => none
      else if c = 'f' then
        match rest with
        | 'a' :: 'l' :: 's' :: 'e' :: r => some (.bool_v false, r)
        | _ => none
      else if c = '"' then
        (jsonParseStr (rest.length + 1) [] rest).map (fun p => (.str_v p.1, p.2))
      else if c = '[' then
        match jsonSkipWs rest with
        | ']' :: r => some (.list_v [], r)
        | r => (jsonParseArrItems fuel r).map (fun p => (.list_v p.1, p.2))
      else if c = Char.ofNat 123 then
        match jsonSkipWs rest with
        | r =>
          if r.head? = some (Char.ofNat 125) then some (.dict_v [], r.tail)
          else (jsonParseObjItems fuel r).map (fun p => (.dict_v p.1, p.2))
      else jsonParseNum (c :: rest)

/-- Parse one or more comma-separated JSON array items up to `]`. -/
def jsonParseArrItems : Nat → List Char → Option (List PyVal × List Char)
  | 0, _ => none
  | fuel + 1, input =>
    match jsonParseVal fuel input with
    | none => none
    | some (v, rest) =>
      match jsonSkipWs rest with
      | ',' :: r => (jsonParseArrItems fuel r).map (fun p => (v :: p.1, p.2))
      | ']' :: r => some ([v], r)
      | _ => none

/-- Parse one or more comma-separated JSON object members up to the closing
brace, preserving member order. -/
def jsonParseObjItems : Nat → List Char → Option (List (String × PyVal) × List Char)
  | 0, _ => none
  | fuel + 1, input =>
    match jsonSkipWs input with
    | '"' :: rest =>
      match jsonParseStr (rest.length + 1) [] rest with
      | none => none
      | some (key, rest2) =>
        match jsonSkipWs rest2 with
        | ':' :: rest3 =>
          match jsonParseVal fuel rest3 with
          | none => none
          | some (v, rest4) =>
            match jsonSkipWs rest4 with
            | ',' :: r => (jsonParseObjItems fuel r).map (fun p => ((key, v) :: p.1, p.2))
            | r =>
              if r.head? = some (Char.ofNat 125) then some ([(key, v)], r.tail)
              else none
        | _ => none
    | _ => none

end

/-- Python `json.loads` on a string: parse one JSON document and require
only whitespace to follow; failures raise `json.JSONDecodeError`. -/
def json_loads (s : String) : Except PyExn PyVal :=
  match jsonParseVal (s.length + 1) s.data with
  | some (v, rest) =>
    if (jsonSkipWs rest).isEmpty then .ok v
    else .error (.jsonDecodeError "Extra data")
  | none => .error (.jsonDecodeError "Expecting value")

/-- Python `json.loads` applied to the value of `event.get('body', '\x7b\x7d')`:
str (and bytes) input is parsed; any other type raises `TypeError`, which the
handler's inner `except json.JSONDecodeError` does not catch. -/
def json_loads_py (v : PyVal) : Except PyExn PyVal :=
  match v with
  | .str_v s => json_loads s
  | .bytes_v s => json_loads s
  | _ => .error (.typeError ("the JSON object must be str, bytes or bytearray, not " ++ pyTypeName v))

/-- One conversation message: a role (`"user"` or `"assistant"`) and its
text content, as the dicts `{"role": ..., "content": ...}` of the source. -/
structure Turn where
  role : String
  content : String
deriving DecidableEq

/-- `format_messages_for_titan` (src/lambda_function.py:280-292): flatten the
conversation into a single prompt, `"User: <content>\n"` or
`"Assistant: <content>\n"` per turn (other roles skipped), followed by the
trailing `"Assistant: "` cue. -/
def format_messages_for_titan (messages : List Turn) : String :=
  let formatted := messages.foldl
    (fun acc msg =>
      if msg.role = "user" then acc ++ "User: " ++ msg.content ++ "\n"
      else if msg.role = "assistant" then acc ++ "Assistant: " ++ msg.content ++ "\n"
      else acc) ""
  formatted ++ "Assistant: "

/-- The request body `call_bedrock` builds for each model family
(src/lambda_function.py:166-185). -/
inductive BedrockPayload where
  | anthropicBody (anthropic_version : String) (max_tokens : Int)
      (messages : List Turn) (temperature : PyFloat) : BedrockPayload
  | titanBody (inputText : String) (maxTokenCount : Int)
      (temperature : PyFloat) (topP : PyFloat) : BedrockPayload
deriving DecidableEq

/-- One `bedrock_runtime.invoke_model` call: the model id and the serialized
request body that were sent. -/
structure BedrockCall where
  modelId : PyVal
  body : BedrockPayload

/-- The behaviour of the external Bedrock runtime for this request:
a successfully decoded response body, a `botocore.exceptions.ClientError`,
or any other exception raised while invoking or decoding. -/
inductive BackendBehavior where
  | ret (response_body : PyVal) : BackendBehavior
  | clientErr (code : String) (msg : String) : BackendBehavior
  | otherErr (msg : String) : BackendBehavior

/-- The invoke-and-parse tail of `call_bedrock`
(src/lambda_function.py:190-206): send the payload, decode the response and
extract the text along the family-specific field path.  `isAnthropic` records
which family branch built the payload; the source re-tests
`'anthropic' in model_id`, which gives the same answer.  The second component
records the backend invocations performed. -/
def invokeAndParse (backend : BackendBehavior) (model_id : PyVal)
    (payload : BedrockPayload) (isAnthropic : Bool) :
    Except PyExn String × List BedrockCall :=
  let call : BedrockCall := ⟨model_id, payload⟩
  match backend with
  | .clientErr c m => (.error (.clientError c m), [call])
  | .otherErr m => (.error (.generic m), [call])
  | .ret response_body =>
    let extracted : Except PyExn PyVal :=
      if isAnthropic then do
        let c ← pySubKey response_body "content"
        let c0 ← pySubIdx c 0
        pySubKey c0 "text"
      else do
        let r ← pySubKey response_body "results"
        let r0 ← pySubIdx r 0
        pySubKey r0 "outputText"
    match extracted with
    | .error e => (.error e, [call])
    | .ok v => (.ok (pyStrOf v), [call])

/-- `call_bedrock` (src/lambda_function.py:160-213): dispatch on a substring
match of the model id, build the family payload, invoke the backend and parse
its response.  A `ClientError` is re-raised unchanged; every other exception
of the body — including the `ValueError` raised for an unsupported model id
before any invocation — is caught by the trailing `except Exception` and
re-raised wrapped in a generic `Exception` whose message is prefixed with
the Korean model-call-error text. -/
def call_bedrock (backend : BackendBehavior) (messages : List Turn)
    (model_id : PyVal) (max_tokens : Int) (temperature : PyFloat) :
    Except PyExn String × List BedrockCall :=
  let inner : Except PyExn String × List BedrockCall :=
    match pyContains model_id "anthropic" with
    | .error e => (.error e, [])
    | .ok isAnthropic =>
      if isAnthropic then
        let body := BedrockPayload.anthropicBody "bedrock-2023-05-31" max_tokens messages temperature
        invokeAndParse backend model_id body true
      else
        match pyContains model_id "amazon.titan" with
        | .error e => (.error e, [])
        | .ok isTitan =>
          if isTitan then
            let prompt := format_messages_for_titan messages
            let body := BedrockPayload.titanBody prompt max_tokens temperature ⟨9, -1⟩
            invokeAndParse backend model_id body false
          else
            (.error (.valueError ("지원하지 않는 모델입니다: " ++ pyStrOf model_id)), [])
  match inner with
  | (.ok t, cs) => (.ok t, cs)
  | (.error (.clientError c m), cs) => (.error (.clientError c m), cs)
  | (.error e, cs) => (.error (.generic ("모델 호출 중 오류가 발생했습니다: " ++ exnStr e)), cs)

/-- Truthiness of `os.environ.get('DYNAMODB_TABLE')`: the store is configured
only when the variable is present and non-empty. -/
def tableConfigured : Option String → Bool
  | none => false
  | some t => t != ""

/-- What the DynamoDB read would do for this session: raise, find no item,
or find an item whose `messages` attribute is `msgs` (`found none` is an item
without a `messages` attribute, defaulted to `[]` by the source). -/
inductive ReadOutcome where
  | err (msg : String) : ReadOutcome
  | notFound : ReadOutcome
  | found (msgs : Option (List Turn)) : ReadOutcome

/-- `get_conversation_history` (src/lambda_function.py:215-239): return the
stored turn list; return `[]` — never raising to the caller — when the table
is not configured, the key has no item, the item has no `messages` attribute,
or the read raises. -/
def get_conversation_history (table : Option String) (read : ReadOutcome) : List Turn :=
  if tableConfigured table = false then []
  else
    match read with
    | .err _ => []
    | .notFound => []
    | .found none => []
    | .found (some msgs) => msgs

/-- The item `save_conversation_history` writes with `put_item`
(src/lambda_function.py:266-273). -/
structure SavedItem where
  session_id : PyVal
  messages : List Turn
  updated_at : Int
  ttl : Int

/-- `save_conversation_history` (src/lambda_function.py:241-278): no-op when
the table is not configured; otherwise append the assistant turn, keep only
the most recent 20 turns, and write the item with `updated_at` set to the
current time and `ttl` to the current time plus 24 hours.  The result is the
attempted write (`none` when nothing is written); a raising `put_item` is
swallowed by the source and not modelled. -/
def save_conversation_history (table : Option String) (session_id : PyVal)
    (messages : List Turn) (bot_response : String) (now : Int) : Option SavedItem :=
  if tableConfigured table = false then none
  else
    let messages := messages ++ [⟨"assistant", bot_response⟩]
    let messages := if messages.length > 20 then messages.drop (messages.length - 20) else messages
    let ttl := now + 24 * 60 * 60
    some ⟨session_id, messages, now, ttl⟩

/-- The environment variables the source reads. -/
structure Env where
  MAX_TOKENS : Option String
  TEMPERATURE : Option String
  DYNAMODB_TABLE : Option String

/-- An HTTP response as returned by the handler: status code, headers, and
the dict passed to `json.dumps` as the body. -/
structure HttpResponse where
  statusCode : Nat
  headers : List (String × String)
  body : PyVal

/-- The CORS headers attached to every response (src/lambda_function.py:22-27). -/
def corsHeaders : List (String × String) :=
  [("Content-Type", "application/json; charset=utf-8"),
   ("Access-Control-Allow-Origin", "*"),
   ("Access-Control-Allow-Methods", "POST, OPTIONS"),
   ("Access-Control-Allow-Headers", "Content-Type, Authorization, X-Requested-With")]

/-- The 200 CORS-preflight acknowledgment (src/lambda_function.py:30-35). -/
def optionsResponse : HttpResponse :=
  ⟨200, corsHeaders, .dict_v [("message", .str_v "CORS preflight successful")]⟩

/-- The 405 response for non-POST, non-OPTIONS methods
(src/lambda_function.py:38-46). -/
def methodNotAllowedResponse : HttpResponse :=
  ⟨405, corsHeaders, .dict_v
    [("error", .str_v "Method not allowed. Use POST method."),
     ("allowed_methods", .list_v [.str_v "POST", .str_v "OPTIONS"])]⟩

/-- The 400 response for a body that fails JSON decoding
(src/lambda_function.py:52-59). -/
def malformedBodyResponse : HttpResponse :=
  ⟨400, corsHeaders, .dict_v
    [("error", .str_v "잘못된 JSON 형식입니다."),
     ("status", .str_v "error")]⟩

/-- The 400 response for a missing or whitespace-only message
(src/lambda_function.py:70-78). -/
def missingMessageResponse : HttpResponse :=
  ⟨400, corsHeaders, .dict_v
    [("error", .str_v "메시지가 필요합니다."),
     ("required_fields", .list_v [.str_v "message"]),
     ("optional_fields", .list_v
       [.str_v "session_id", .str_v "model_id", .str_v "max_tokens", .str_v "temperature"])]⟩

/-- The 400 response for a message over the 10,000-character limit, which
reports the observed length and the limit (src/lambda_function.py:82-90). -/
def tooLongResponse (observedLength : Nat) : HttpResponse :=
  ⟨400, corsHeaders, .dict_v
    [("error", .str_v "메시지가 너무 깁니다. 10,000자 이내로 입력해주세요."),
     ("current_length", .int_v (observedLength : Int)),
     ("max_length", .int_v 10000)]⟩

/-- Python `round(q, 2)` as used for the processing time: an exact decimal
with at most two fractional digits is unchanged; otherwise round the
mantissa to two decimal places (half-up; the banker tie case is immaterial
here, as nothing in the claims reads the processing time). -/
def round2 (q : PyFloat) : PyFloat :=
  if q.exponent10 ≥ -2 then q
  else
    let d : Int := 10 ^ ((-q.exponent10).toNat - 2)
    ⟨(q.mantissa + d / 2).tdiv d, -2⟩

/-- The 200 success response (src/lambda_function.py:113-124). -/
def successResponse (response_text : String) (session_id model_id : PyVal)
    (elapsed : PyFloat) : HttpResponse :=
  ⟨200, corsHeaders, .dict_v
    [("response", .str_v response_text),
     ("session_id", session_id),
     ("model_used", model_id),
     ("processing_time", .float_v (round2 elapsed)),
     ("region", .str_v "ap-northeast-2"),
     ("status", .str_v "success")]⟩

/-- The two `except` clauses of `lambda_handler`
(src/lambda_function.py:126-158): a `ClientError` is mapped to a 500
`aws_error` response with a code-specific message; every other exception is
mapped to a 500 `internal_error` response carrying `str(e)`. -/
def exceptClauses (e : PyExn) : HttpResponse :=
  match e with
  | .clientError code msg =>
    let error_message :=
      if code = "AccessDeniedException" then
        "모델 액세스 권한이 없습니다. AWS 콘솔에서 Model access를 활성화하세요."
      else if code = "ThrottlingException" then
        "요청이 너무 많습니다. 잠시 후 다시 시도해주세요."
      else if code = "ValidationException" then
        "요청 형식이 잘못되었습니다: " ++ msg
      else
        "AWS 서비스 오류: " ++ exnStr (.clientError code msg)
    ⟨500, corsHeaders, .dict_v
      [("error", .str_v error_message),
       ("error_code", .str_v code),
       ("status", .str_v "aws_error")]⟩
  | e =>
    ⟨500, corsHeaders, .dict_v
      [("error", .str_v ("서버 내부 오류가 발생했습니다: " ++ exnStr e)),
       ("status", .str_v "internal_error")]⟩

/-- The request parameters extracted at src/lambda_function.py:62-66. -/
structure Params where
  message : String
  session_id : PyVal
  model_id : PyVal
  max_tokens : Int
  temperature : PyFloat

/-- Parameter extraction (src/lambda_function.py:62-66), in source order:
`message` is fetched and stripped first, then `session_id` and `model_id`
are fetched, then `max_tokens` is converted with `int(...)` and
`temperature` with `float(...)`.  Any raised conversion error therefore
precedes the message validation of lines 69-90. -/
def extractParams (env : Env) (body : PyVal) : Except PyExn Params :=
  match pyGet body "message" (.str_v "") with
  | .error e => .error e
  | .ok messageRaw =>
    match pyStrip messageRaw with
    | .error e => .error e
    | .ok message =>
      match pyGet body "session_id" .none_v with
      | .error e => .error e
      | .ok session_id =>
        match pyGet body "model_id" (.str_v "anthropic.claude-sonnet-4-20250514-v1:0") with
        | .error e => .error e
        | .ok model_id =>
          match pyGet body "max_tokens" (.str_v (env.MAX_TOKENS.getD "1000")) with
          | .error e => .error e
          | .ok maxTokensRaw =>
            match pyInt maxTokensRaw with
            | .error e => .error e
            | .ok max_tokens =>
              match pyGet body "temperature" (.str_v (env.TEMPERATURE.getD "0.7")) with
              | .error e => .error e
              | .ok temperatureRaw =>
                match pyFloat temperatureRaw with
                | .error e => .error e
                | .ok temperature =>
                  .ok ⟨message, session_id, model_id, max_tokens, temperature⟩

/-- What one invocation of the handler produced: either a returned response
or an exception that escaped the handler (a crash of the Lambda). -/
inductive LambdaResult where
  | response (r : HttpResponse) : LambdaResult
  | crash (e : PyExn) : LambdaResult

/-- The observable outcome of one handler invocation: its result plus the
trace of history loads (session ids passed to `get_conversation_history`)
and store writes (items passed to `put_item`). -/
structure HandlerOutput where
  result : LambdaResult
  loads : List PyVal
  saves : List SavedItem

/-- The body of the handler from parameter extraction onward
(src/lambda_function.py:62-124): validate the message, load history when a
truthy session id is present, append the user turn, call Bedrock, save when
a truthy session id is present, and build the success response.  Early
returns are `.ok` responses; raised exceptions are `.error`s for the
`except` clauses. -/
def handlerCore (env : Env) (backend : BackendBehavior) (read : ReadOutcome)
    (now : Int) (elapsed : PyFloat) (body : PyVal) :
    Except PyExn HttpResponse × List PyVal × List SavedItem :=
  match extractParams env body with
  | .error e => (.error e, [], [])
  | .ok p =>
    if p.message = "" then (.ok missingMessageResponse, [], [])
    else if p.message.length > 10000 then (.ok (tooLongResponse p.message.length), [], [])
    else
      let loads := if pyTruthy p.session_id then [p.session_id] else []
      let history := if pyTruthy p.session_id then get_conversation_history env.DYNAMODB_TABLE read else []
      let conversation_history := history ++ [⟨"user", p.message⟩]
      match call_bedrock backend conversation_history p.model_id p.max_tokens p.temperature with
      | (.error e, _) => (.error e, loads, [])
      | (.ok response_text, _) =>
        let saves :=
          if pyTruthy p.session_id then
            (save_conversation_history env.DYNAMODB_TABLE p.session_id conversation_history
              response_text now).toList
          else []
        (.ok (successResponse response_text p.session_id p.model_id elapsed), loads, saves)

/-- The try/except boundary of `lambda_handler`: an early `return` of the
`try` block passes through; a raised exception becomes `exceptClauses e`. -/
def wrapExcept (p : Except PyExn HttpResponse × List PyVal × List SavedItem) : HandlerOutput :=
  match p with
  | (.ok r, ls, ss) => ⟨.response r, ls, ss⟩
  | (.error e, ls, ss) => ⟨.response (exceptClauses e), ls, ss⟩

/-- `lambda_handler` (src/lambda_function.py:14-158).  The first statement of
the `try` block is `print(f"Received event: \x7bjson.dumps(event)\x7d")`; when the
event is not JSON-serializable this raises `TypeError` before the local
`headers` is assigned, and the `except Exception` clause — whose `return`
references `headers` — then itself raises `UnboundLocalError`, so the raw
exception escapes the handler (modelled as `.crash`).  After `headers` is
assigned, the OPTIONS and POST method checks run, the body is decoded
(only `json.JSONDecodeError` is caught locally), and `handlerCore` follows,
inside the `wrapExcept` try/except boundary. -/
def lambda_handler (env : Env) (backend : BackendBehavior) (read : ReadOutcome)
    (now : Int) (elapsed : PyFloat) (event : PyVal) : HandlerOutput :=
  if jsonDumpsOk event = false then
    ⟨.crash (.nameError "cannot access local variable headers where it is not associated with a value"), [], []⟩
  else
    wrapExcept
      (match pyGet event "httpMethod" .none_v with
       | .error e => (.error e, [], [])
       | .ok m =>
         if pyEqStr m "OPTIONS" then (.ok optionsResponse, [], [])
         else if pyEqStr m "POST" = false then (.ok methodNotAllowedResponse, [], [])
         else
           match pyGet event "body" (.str_v "\x7b\x7d") with
           | .error e => (.error e, [], [])
           | .ok bodyRaw =>
             match json_loads_py bodyRaw with
             | .error (.jsonDecodeError _) => (.ok malformedBodyResponse, [], [])
             | .error e => (.error e, [], [])
             | .ok body => handlerCore env backend read now elapsed body)

/-- The status code of the handler outcome, when it returned a response. -/
def resultStatusCode (o : HandlerOutput) : Option Nat :=
  match o.result with
  | .response r => some r.statusCode
  | .crash _ => none

/-- A field of the response body dict, when the outcome is a response with a
dict body. -/
def resultBodyField (o : HandlerOutput) (key : String) : Option PyVal :=
  match o.result with
  | .response r =>
    match r.body with
    | .dict_v fs => lookupField fs key
    | _ => none
  | .crash _ => none

/-- A POST event carrying the given body value. -/
def mkPostEvent (body : PyVal) : PyVal :=
  .dict_v [("httpMethod", .str_v "POST"), ("body", body)]

instance exceptDecEq {ε α : Type} [DecidableEq ε] [DecidableEq α] :
    DecidableEq (Except ε α)
  | .ok a, .ok b =>
    if h : a = b then .isTrue (by rw [h]) else .isFalse (fun hh => h (Except.ok.inj hh))
  | .ok _, .error _ => .isFalse (fun hh => Except.noConfusion hh)
  | .error _, .ok _ => .isFalse (fun hh => Except.noConfusion hh)
  | .error e, .error f =>
    if h : e = f then .isTrue (by rw [h]) else .isFalse (fun hh => h (Except.error.inj hh))

/-- Every response produced by the `except` clauses carries status 500. -/
lemma exceptClauses_statusCode (e : PyExn) : (exceptClauses e).statusCode = 500 := by
  cases e <;> rfl

/-- `invokeAndParse` always records exactly its one backend invocation. -/
lemma invokeAndParse_calls (backend : BackendBehavior) (model_id : PyVal)
    (payload : BedrockPayload) (isAnthropic : Bool) :
    (invokeAndParse backend model_id payload isAnthropic).2 = [⟨model_id, payload⟩] := by
  cases backend with
  | clientErr c m => rfl
  | otherErr m => rfl
  | ret rb =>
    unfold invokeAndParse
    dsimp only
    split <;> rfl

/-- On a POST event with a string body, the handler is the composition of
`json_loads`, the inner `except json.JSONDecodeError` clause, `handlerCore`,
and the outer try/except boundary. -/
lemma lambda_handler_post_eq (env : Env) (backend : BackendBehavior) (read : ReadOutcome)
    (now : Int) (elapsed : PyFloat) (s : String) :
    lambda_handler env backend read now elapsed (mkPostEvent (.str_v s)) =
      wrapExcept
        (match json_loads s with
         | .error (.jsonDecodeError _) => (.ok malformedBodyResponse, [], [])
         | .error e => (.error e, [], [])
         | .ok body => handlerCore env backend read now elapsed body) := rfl

/-- C7 (code_bug evidence): on an event that is not JSON-serializable — here a
POST event whose `body` value is a `bytes` object — the logging call
`print(f"Received event: \x7bjson.dumps(event)\x7d")` raises `TypeError` before the
local `headers` is assigned; the `except Exception` clause then references the
unassigned `headers` and itself raises, so the handler crashes instead of
returning the 500 internal-error response the claim promises. -/
theorem claim7_crash_before_headers :
    lambda_handler ⟨none, none, none⟩ (.ret (.dict_v [])) .notFound 0 ⟨0, 0⟩
        (.dict_v [("httpMethod", .str_v "POST"), ("body", .bytes_v "raw")]) =
      ⟨.crash (.nameError "cannot access local variable headers where it is not associated with a value"),
        [], []⟩ := rfl

/-- C2 (counterexample): for the unrecognized model id "foo.bar", the error
that leaves `call_bedrock` is a generic `Exception` whose message has been
prefixed by the invoker's own `except Exception` clause — not the original
`ValueError` unchanged, as the claim states — though indeed no backend
invocation is recorded. -/
theorem claim2_counterexample :
    (call_bedrock (.ret (.dict_v [])) [] (.str_v "foo.bar") 1000 ⟨7, -1⟩).1 =
      .error (.generic "모델 호출 중 오류가 발생했습니다: 지원하지 않는 모델입니다: foo.bar")
    ∧ (call_bedrock (.ret (.dict_v [])) [] (.str_v "foo.bar") 1000 ⟨7, -1⟩).1 ≠
      .error (.valueError "지원하지 않는 모델입니다: foo.bar")
    ∧ (call_bedrock (.ret (.dict_v [])) [] (.str_v "foo.bar") 1000 ⟨7, -1⟩).2 = [] := by
  refine ⟨rfl, ?_, rfl⟩
  intro h
  rw [show (call_bedrock (.ret (.dict_v [])) [] (.str_v "foo.bar") 1000 ⟨7, -1⟩).1 =
      .error (.generic "모델 호출 중 오류가 발생했습니다: 지원하지 않는 모델입니다: foo.bar") from rfl] at h
  exact PyExn.noConfusion (Except.error.inj h)

/-- C2 (amended): for every model id containing neither "anthropic" nor
"amazon.titan", `call_bedrock` performs no backend invocation and fails — but
the `ValueError` (the UnsupportedModelError) raised before any network call is
caught by the invoker's own `except Exception` clause and re-raised wrapped in
a generic `Exception` whose message prefixes the original, rather than being
propagated unchanged. -/
theorem claim2_unsupported_model_rewrapped (backend : BackendBehavior)
    (messages : List Turn) (mid : String) (max_tokens : Int) (temperature : PyFloat)
    (h1 : strContainsSub mid "anthropic" = false)
    (h2 : strContainsSub mid "amazon.titan" = false) :
    call_bedrock backend messages (.str_v mid) max_tokens temperature =
      (.error (.generic ("모델 호출 중 오류가 발생했습니다: " ++ ("지원하지 않는 모델입니다: " ++ mid))), []) := by
  have ha : pyContains (.str_v mid) "anthropic" = .ok false := by
    rw [show pyContains (.str_v mid) "anthropic" = .ok (strContainsSub mid "anthropic") from rfl, h1]
  have ht : pyContains (.str_v mid) "amazon.titan" = .ok false := by
    rw [show pyContains (.str_v mid) "amazon.titan" = .ok (strContainsSub mid "amazon.titan") from rfl, h2]
  simp only [call_bedrock, ha, ht]
  rfl

/-- Witness for C2's amended theorem at the concrete model id "foo.bar". -/
theorem claim2_unsupported_model_rewrapped_instance :
    call_bedrock (.ret (.dict_v [])) [] (.str_v "foo.bar") 1000 ⟨7, -1⟩ =
      (.error (.generic ("모델 호출 중 오류가 발생했습니다: " ++ ("지원하지 않는 모델입니다: " ++ "foo.bar"))), []) :=
  claim2_unsupported_model_rewrapped (.ret (.dict_v [])) [] "foo.bar" 1000 ⟨7, -1⟩ rfl rfl

/-- C3: `Load` returns an empty turn sequence — raising nothing, being a
total function — whenever the store table is not configured, the key has no
item, or the read call errors; and when the store is not configured, `Save`
performs no write (returns `none`) for any input. -/
theorem claim3_store_degrades (table : Option String) (read : ReadOutcome)
    (sid : PyVal) (msgs : List Turn) (bot : String) (now : Int) (emsg : String) :
    (tableConfigured table = false →
      get_conversation_history table read = []
      ∧ save_conversation_history table sid msgs bot now = none)
    ∧ get_conversation_history table .notFound = []
    ∧ get_conversation_history table (.err emsg) = []
    ∧ get_conversation_history table (.found none) = [] := by
  refine ⟨fun h => ⟨?_, ?_⟩, ?_, ?_, ?_⟩
  · simp [get_conversation_history, h]
  · simp [save_conversation_history, h]
  · cases htc : tableConfigured table <;> simp [get_conversation_history, htc]
  · cases htc : tableConfigured table <;> simp [get_conversation_history, htc]
  · cases htc : tableConfigured table <;> simp [get_conversation_history, htc]

/-- Witness for C3 at an unconfigured store and an erroring read. -/
theorem claim3_store_degrades_instance :
    get_conversation_history none (.err "boom") = []
    ∧ save_conversation_history none (.str_v "sid") [] "resp" 5 = none :=
  (claim3_store_degrades none (.err "boom") (.str_v "sid") [] "resp" 5 "boom").1 rfl

/-- C4: when the store is configured and `Save` receives 23 turns in total
(22 prior plus the appended assistant turn of the current exchange), the item
written holds exactly the most recent 20 of them, dropped from the front, in
their original order and unaltered. -/
theorem claim4_save_truncates (table : Option String) (sid : PyVal)
    (msgs : List Turn) (bot : String) (now : Int)
    (hconf : tableConfigured table = true) (hlen : msgs.length = 22) :
    save_conversation_history table sid msgs bot now =
      some ⟨sid, (msgs ++ [(⟨"assistant", bot⟩ : Turn)]).drop 3, now, now + 86400⟩ := by
  unfold save_conversation_history
  rw [hconf]
  simp [hlen]

/-- Witness for C4 with 22 concrete prior turns. -/
theorem claim4_save_truncates_instance :
    save_conversation_history (some "conversations") (.str_v "s")
        (List.replicate 22 ⟨"user", "m"⟩) "r" 1000 =
      some ⟨.str_v "s", (List.replicate 22 (⟨"user", "m"⟩ : Turn) ++ [(⟨"assistant", "r"⟩ : Turn)]).drop 3,
        1000, 1000 + 86400⟩ :=
  claim4_save_truncates (some "conversations") (.str_v "s")
    (List.replicate 22 ⟨"user", "m"⟩) "r" 1000 rfl (by simp)

/-- C6: whenever the store is configured, the item written by `Save` has
`updated_at` equal to the current time of that call and `ttl` equal to that
time plus 86400 seconds; a later call at a different current time gets a ttl
recomputed from its own time, not carried over or extended (the save is a
pure function of the call time, never of a previously written record). -/
theorem claim6_ttl_recomputed (table : Option String) (sid : PyVal)
    (msgs : List Turn) (bot : String) (now now2 : Int)
    (hconf : tableConfigured table = true) :
    (save_conversation_history table sid msgs bot now).map SavedItem.updated_at = some now
    ∧ (save_conversation_history table sid msgs bot now).map SavedItem.ttl = some (now + 86400)
    ∧ (save_conversation_history table sid msgs bot now2).map SavedItem.ttl = some (now2 + 86400) := by
  unfold save_conversation_history
  rw [hconf]
  refine ⟨rfl, ?_, ?_⟩ <;> simp

/-- C5: for a Family-B model id containing "amazon.titan" (and not
"anthropic"), the payload built for the two-turn conversation
user "Hi" / assistant "Hello" carries exactly the flattened prompt
"User: Hi\nAssistant: Hello\nAssistant: " — capitalized role labels, a
newline after each turn, and the trailing assistant cue. -/
theorem claim5_titan_prompt (backend : BackendBehavior) (mid : String)
    (max_tokens : Int) (temperature : PyFloat)
    (h1 : strContainsSub mid "amazon.titan" = true)
    (h2 : strContainsSub mid "anthropic" = false) :
    format_messages_for_titan [⟨"user", "Hi"⟩, ⟨"assistant", "Hello"⟩] =
      "User: Hi\nAssistant: Hello\nAssistant: "
    ∧ (call_bedrock backend [⟨"user", "Hi"⟩, ⟨"assistant", "Hello"⟩]
        (.str_v mid) max_tokens temperature).2 =
      [⟨.str_v mid,
        .titanBody "User: Hi\nAssistant: Hello\nAssistant: " max_tokens temperature ⟨9, -1⟩⟩] := by
  have ha : pyContains (.str_v mid) "anthropic" = .ok false := by
    rw [show pyContains (.str_v mid) "anthropic" = .ok (strContainsSub mid "anthropic") from rfl, h2]
  have ht : pyContains (.str_v mid) "amazon.titan" = .ok true := by
    rw [show pyContains (.str_v mid) "amazon.titan" = .ok (strContainsSub mid "amazon.titan") from rfl, h1]
  refine ⟨rfl, ?_⟩
  rw [show (call_bedrock backend [⟨"user", "Hi"⟩, ⟨"assistant", "Hello"⟩]
        (.str_v mid) max_tokens temperature) =
      (match (invokeAndParse backend (.str_v mid)
          (.titanBody "User: Hi\nAssistant: Hello\nAssistant: " max_tokens temperature ⟨9, -1⟩) false :
          Except PyExn String × List BedrockCall) with
       | (.ok t, cs) => ((.ok t : Except PyExn String), cs)
       | (.error (.clientError c m), cs) => (.error (.clientError c m), cs)
       | (.error e, cs) => (.error (.generic ("모델 호출 중 오류가 발생했습니다: " ++ exnStr e)), cs)) from by
    simp only [call_bedrock, ha, ht]
    rfl]
  have hcalls := invokeAndParse_calls backend (.str_v mid)
    (.titanBody "User: Hi\nAssistant: Hello\nAssistant: " max_tokens temperature ⟨9, -1⟩) false
  rcases hi : invokeAndParse backend (.str_v mid)
      (.titanBody "User: Hi\nAssistant: Hello\nAssistant: " max_tokens temperature ⟨9, -1⟩) false
    with ⟨res, calls⟩
  rw [hi] at hcalls
  cases res with
  | ok t => simpa using hcalls
  | error e => cases e <;> simpa using hcalls

/-- Witness for C6 at two distinct call times. -/
theorem claim6_ttl_recomputed_instance :
    (save_conversation_history (some "conversations") (.str_v "s") [] "r" 50).map SavedItem.ttl
      = some (50 + 86400)
    ∧ (save_conversation_history (some "conversations") (.str_v "s") [] "r" 75).map SavedItem.ttl
      = some (75 + 86400) :=
  ⟨(claim6_ttl_recomputed (some "conversations") (.str_v "s") [] "r" 50 75 rfl).2.1,
   (claim6_ttl_recomputed (some "conversations") (.str_v "s") [] "r" 50 75 rfl).2.2⟩

/-- Witness for C5 at the concrete Titan model id. -/
theorem claim5_titan_prompt_instance :
    format_messages_for_titan [⟨"user", "Hi"⟩, ⟨"assistant", "Hello"⟩] =
      "User: Hi\nAssistant: Hello\nAssistant: "
    ∧ (call_bedrock (.ret (.dict_v [])) [⟨"user", "Hi"⟩, ⟨"assistant", "Hello"⟩]
        (.str_v "amazon.titan-text-express-v1") 1000 ⟨7, -1⟩).2 =
      [⟨.str_v "amazon.titan-text-express-v1",
        .titanBody "User: Hi\nAssistant: Hello\nAssistant: " 1000 ⟨7, -1⟩ ⟨9, -1⟩⟩] :=
  claim5_titan_prompt (.ret (.dict_v [])) "amazon.titan-text-express-v1" 1000 ⟨7, -1⟩ rfl rfl

/-- Whether a Python value is a dict. -/
def isDictVal : PyVal → Bool
  | .dict_v _ => true
  | _ => false

/-- On a POST event whose string body parses, the handler is `handlerCore`
inside the try/except boundary. -/
lemma lambda_handler_post_ok (env : Env) (backend : BackendBehavior) (read : ReadOutcome)
    (now : Int) (elapsed : PyFloat) (s : String) (body : PyVal)
    (h : json_loads s = .ok body) :
    lambda_handler env backend read now elapsed (mkPostEvent (.str_v s)) =
      wrapExcept (handlerCore env backend read now elapsed body) := by
  rw [lambda_handler_post_eq, h]

/-- C1: for a POST request whose JSON body carries a string message, the
validation of lines 69-90 accepts (never returns a 400 response) whenever the
stripped message is non-empty and at most 10,000 characters; a message that
strips to empty is rejected with the 400 missing-message response; a message
whose stripped length is 10,001 is rejected with the 400 too-long response
whose body reports observed length 10001 and limit 10000. -/
theorem claim1_message_validation (table : Option String) (backend : BackendBehavior)
    (read : ReadOutcome) (now : Int) (elapsed : PyFloat) (s m : String)
    (hparse : json_loads s = .ok (.dict_v [("message", .str_v m)])) :
    (pyStripStr m ≠ "" → (pyStripStr m).length ≤ 10000 →
      ∀ resp, (lambda_handler ⟨none, none, table⟩ backend read now elapsed
          (mkPostEvent (.str_v s))).result = .response resp →
        resp.statusCode ≠ 400)
    ∧ (pyStripStr m = "" →
      lambda_handler ⟨none, none, table⟩ backend read now elapsed (mkPostEvent (.str_v s)) =
        ⟨.response missingMessageResponse, [], []⟩)
    ∧ ((pyStripStr m).length = 10001 →
      lambda_handler ⟨none, none, table⟩ backend read now elapsed (mkPostEvent (.str_v s)) =
        ⟨.response (tooLongResponse 10001), [], []⟩) := by
  have hcore : handlerCore ⟨none, none, table⟩ backend read now elapsed
      (.dict_v [("message", .str_v m)]) =
      (if pyStripStr m = "" then (.ok missingMessageResponse, [], [])
       else if (pyStripStr m).length > 10000 then
         (.ok (tooLongResponse (pyStripStr m).length), [], [])
       else
         match call_bedrock backend [⟨"user", pyStripStr m⟩]
             (.str_v "anthropic.claude-sonnet-4-20250514-v1:0") 1000 ⟨7, -1⟩ with
         | (.error e, _) => (.error e, [], [])
         | (.ok response_text, _) =>
           (.ok (successResponse response_text .none_v
             (.str_v "anthropic.claude-sonnet-4-20250514-v1:0") elapsed), [], [])) := rfl
  rw [lambda_handler_post_ok _ _ _ _ _ _ _ hparse, hcore]
  refine ⟨?_, ?_, ?_⟩
  · intro h1 h2 resp hresp
    rw [if_neg h1, if_neg (by omega : ¬ (pyStripStr m).length > 10000)] at hresp
    rcases hcb : call_bedrock backend [⟨"user", pyStripStr m⟩]
        (.str_v "anthropic.claude-sonnet-4-20250514-v1:0") 1000 ⟨7, -1⟩ with ⟨res, calls⟩
    rw [hcb] at hresp
    cases res with
    | ok t =>
      dsimp only [wrapExcept] at hresp
      injection hresp with h3
      subst h3
      simp [successResponse]
    | error e =>
      dsimp only [wrapExcept] at hresp
      injection hresp with h3
      subst h3
      rw [exceptClauses_statusCode]
      decide
  · intro hEmpty
    rw [if_pos hEmpty]
    rfl
  · intro hLen
    have hne : pyStripStr m ≠ "" := by
      intro h
      rw [h] at hLen
      exact absurd hLen (by decide)
    rw [if_neg hne, if_pos (by omega : (pyStripStr m).length > 10000), hLen]
    rfl

/-- C9: a request whose `session_id` field is present but equal to the empty
string behaves exactly as session-less mode — the falsy check
`if session_id:` skips both the history load and the history save, even with
a configured store — and a 200 success response echoes the empty-string
session id in its body. -/
theorem claim9_empty_session_id (table : Option String) (backend : BackendBehavior)
    (read : ReadOutcome) (now : Int) (elapsed : PyFloat) (s m : String)
    (hparse : json_loads s = .ok (.dict_v [("message", .str_v m), ("session_id", .str_v "")]))
    (h1 : pyStripStr m ≠ "") (h2 : (pyStripStr m).length ≤ 10000) :
    (lambda_handler ⟨none, none, table⟩ backend read now elapsed (mkPostEvent (.str_v s))).loads = []
    ∧ (lambda_handler ⟨none, none, table⟩ backend read now elapsed (mkPostEvent (.str_v s))).saves = []
    ∧ (resultStatusCode (lambda_handler ⟨none, none, table⟩ backend read now elapsed
          (mkPostEvent (.str_v s))) = some 200 →
        resultBodyField (lambda_handler ⟨none, none, table⟩ backend read now elapsed
          (mkPostEvent (.str_v s))) "session_id" = some (.str_v "")) := by
  have hcore : handlerCore ⟨none, none, table⟩ backend read now elapsed
      (.dict_v [("message", .str_v m), ("session_id", .str_v "")]) =
      (if pyStripStr m = "" then (.ok missingMessageResponse, [], [])
       else if (pyStripStr m).length > 10000 then
         (.ok (tooLongResponse (pyStripStr m).length), [], [])
       else
         match call_bedrock backend [⟨"user", pyStripStr m⟩]
             (.str_v "anthropic.claude-sonnet-4-20250514-v1:0") 1000 ⟨7, -1⟩ with
         | (.error e, _) => (.error e, [], [])
         | (.ok response_text, _) =>
           (.ok (successResponse response_text (.str_v "")
             (.str_v "anthropic.claude-sonnet-4-20250514-v1:0") elapsed), [], [])) := rfl
  rw [lambda_handler_post_ok _ _ _ _ _ _ _ hparse, hcore,
    if_neg h1, if_neg (by omega : ¬ (pyStripStr m).length > 10000)]
  rcases hcb : call_bedrock backend [⟨"user", pyStripStr m⟩]
      (.str_v "anthropic.claude-sonnet-4-20250514-v1:0") 1000 ⟨7, -1⟩ with ⟨res, calls⟩
  cases res with
  | ok t => exact ⟨rfl, rfl, fun _ => rfl⟩
  | error e =>
    refine ⟨rfl, rfl, fun hco => ?_⟩
    rw [show resultStatusCode (wrapExcept (.error e, [], [])) = some (exceptClauses e).statusCode
        from rfl, exceptClauses_statusCode] at hco
    exact absurd hco (by decide)

/-- C10: when `max_tokens` is a string that `int(...)` cannot convert, or
`temperature` is a string that `float(...)` cannot convert, the conversion at
lines 65-66 raises before the message validation of lines 69-90 runs — the
message here is arbitrary, including invalid ones — and the outer
`except Exception` clause turns it into a 500 internal-error response, not a
400 client error. -/
theorem claim10_numeric_conversion (table : Option String) (backend : BackendBehavior)
    (read : ReadOutcome) (now : Int) (elapsed : PyFloat) (s m t s2 m2 t2 : String)
    (hp1 : json_loads s = .ok (.dict_v [("message", .str_v m), ("max_tokens", .str_v t)]))
    (hb1 : pyIntOfString t = .error (intParseError t))
    (hp2 : json_loads s2 = .ok (.dict_v [("message", .str_v m2), ("temperature", .str_v t2)]))
    (hb2 : pyFloatOfString t2 = .error (floatParseError t2)) :
    (resultStatusCode (lambda_handler ⟨none, none, table⟩ backend read now elapsed
        (mkPostEvent (.str_v s))) = some 500
     ∧ resultBodyField (lambda_handler ⟨none, none, table⟩ backend read now elapsed
        (mkPostEvent (.str_v s))) "status" = some (.str_v "internal_error"))
    ∧ (resultStatusCode (lambda_handler ⟨none, none, table⟩ backend read now elapsed
        (mkPostEvent (.str_v s2))) = some 500
     ∧ resultBodyField (lambda_handler ⟨none, none, table⟩ backend read now elapsed
        (mkPostEvent (.str_v s2))) "status" = some (.str_v "internal_error")) := by
  have hex1 : extractParams ⟨none, none, table⟩
      (.dict_v [("message", .str_v m), ("max_tokens", .str_v t)]) = .error (intParseError t) := by
    rw [show extractParams ⟨none, none, table⟩
        (.dict_v [("message", .str_v m), ("max_tokens", .str_v t)]) =
        (match pyIntOfString t with
         | .error e => (.error e : Except PyExn Params)
         | .ok max_tokens =>
           .ok ⟨pyStripStr m, .none_v, .str_v "anthropic.claude-sonnet-4-20250514-v1:0",
             max_tokens, ⟨7, -1⟩⟩) from rfl, hb1]
  have hex2 : extractParams ⟨none, none, table⟩
      (.dict_v [("message", .str_v m2), ("temperature", .str_v t2)]) =
      .error (floatParseError t2) := by
    rw [show extractParams ⟨none, none, table⟩
        (.dict_v [("message", .str_v m2), ("temperature", .str_v t2)]) =
        (match pyFloatOfString t2 with
         | .error e => (.error e : Except PyExn Params)
         | .ok temperature =>
           .ok ⟨pyStripStr m2, .none_v, .str_v "anthropic.claude-sonnet-4-20250514-v1:0",
             1000, temperature⟩) from rfl, hb2]
  rw [lambda_handler_post_ok _ _ _ _ _ _ _ hp1, lambda_handler_post_ok _ _ _ _ _ _ _ hp2]
  unfold handlerCore
  rw [hex1, hex2]
  exact ⟨⟨rfl, rfl⟩, rfl, rfl⟩

/-- C8 (amended): a POST body that is a string failing JSON decoding yields
the 400 malformed-body response; but a null body raises `TypeError` inside
`json.loads` (not caught by the inner `except json.JSONDecodeError`) and a
JSON body that is not an object raises `AttributeError` at `body.get`, both
surfacing as 500 internal errors; an absent body defaults to the empty JSON
object and is rejected with the 400 missing-message response instead. -/
theorem claim8_body_parse (table : Option String) (backend : BackendBehavior)
    (read : ReadOutcome) (now : Int) (elapsed : PyFloat) (s s2 emsg : String) (v : PyVal)
    (hbad : json_loads s = .error (.jsonDecodeError emsg))
    (hok : json_loads s2 = .ok v) (hnd : isDictVal v = false) :
    lambda_handler ⟨none, none, table⟩ backend read now elapsed (mkPostEvent (.str_v s)) =
      ⟨.response malformedBodyResponse, [], []⟩
    ∧ (resultStatusCode (lambda_handler ⟨none, none, table⟩ backend read now elapsed
          (mkPostEvent .none_v)) = some 500
       ∧ resultBodyField (lambda_handler ⟨none, none, table⟩ backend read now elapsed
          (mkPostEvent .none_v)) "status" = some (.str_v "internal_error"))
    ∧ lambda_handler ⟨none, none, table⟩ backend read now elapsed
        (.dict_v [("httpMethod", .str_v "POST")]) =
      ⟨.response missingMessageResponse, [], []⟩
    ∧ (resultStatusCode (lambda_handler ⟨none, none, table⟩ backend read now elapsed
          (mkPostEvent (.str_v s2))) = some 500
       ∧ resultBodyField (lambda_handler ⟨none, none, table⟩ backend read now elapsed
          (mkPostEvent (.str_v s2))) "status" = some (.str_v "internal_error")) := by
  refine ⟨?_, ⟨rfl, rfl⟩, rfl, ?_⟩
  · rw [lambda_handler_post_eq, hbad]
    rfl
  · rw [lambda_handler_post_ok _ _ _ _ _ _ _ hok]
    cases v with
    | dict_v fs => exact absurd hnd (by simp [isDictVal])
    | none_v => exact ⟨rfl, rfl⟩
    | bool_v b => exact ⟨rfl, rfl⟩
    | int_v n => exact ⟨rfl, rfl⟩
    | float_v q => exact ⟨rfl, rfl⟩
    | str_v str => exact ⟨rfl, rfl⟩
    | bytes_v bs => exact ⟨rfl, rfl⟩
    | list_v xs => exact ⟨rfl, rfl⟩

/-- Witness for C1 at a whitespace-only message, exercising the 400
missing-message rejection. -/
theorem claim1_message_validation_instance :
    lambda_handler ⟨none, none, none⟩ (.ret (.dict_v [])) .notFound 0 ⟨0, 0⟩
        (mkPostEvent (.str_v "\x7b\"message\": \"   \"\x7d")) =
      ⟨.response missingMessageResponse, [], []⟩ :=
  (claim1_message_validation none (.ret (.dict_v [])) .notFound 0 ⟨0, 0⟩
    "\x7b\"message\": \"   \"\x7d" "   " rfl).2.1 rfl

/-- Witness for C9 at a concrete request with an empty `session_id`, a
configured store and a successful backend. -/
theorem claim9_empty_session_id_instance :
    (lambda_handler ⟨none, none, some "tbl"⟩
        (.ret (.dict_v [("content", .list_v [.dict_v [("text", .str_v "ok")]])]))
        (.found (some [⟨"user", "old"⟩])) 0 ⟨0, 0⟩
        (mkPostEvent (.str_v "\x7b\"message\": \"hi\", \"session_id\": \"\"\x7d"))).loads = []
    ∧ (lambda_handler ⟨none, none, some "tbl"⟩
        (.ret (.dict_v [("content", .list_v [.dict_v [("text", .str_v "ok")]])]))
        (.found (some [⟨"user", "old"⟩])) 0 ⟨0, 0⟩
        (mkPostEvent (.str_v "\x7b\"message\": \"hi\", \"session_id\": \"\"\x7d"))).saves = []
    ∧ resultBodyField (lambda_handler ⟨none, none, some "tbl"⟩
        (.ret (.dict_v [("content", .list_v [.dict_v [("text", .str_v "ok")]])]))
        (.found (some [⟨"user", "old"⟩])) 0 ⟨0, 0⟩
        (mkPostEvent (.str_v "\x7b\"message\": \"hi\", \"session_id\": \"\"\x7d"))) "session_id"
      = some (.str_v "") := by
  have h := claim9_empty_session_id (some "tbl")
    (.ret (.dict_v [("content", .list_v [.dict_v [("text", .str_v "ok")]])]))
    (.found (some [⟨"user", "old"⟩])) 0 ⟨0, 0⟩
    "\x7b\"message\": \"hi\", \"session_id\": \"\"\x7d" "hi" rfl (by decide) (by decide)
  exact ⟨h.1, h.2.1, h.2.2 rfl⟩

/-- Witness for C10 at the unconvertible strings "abc" and "xy", with an
empty message in both bodies (showing the conversion failure precedes the
message validation, which would otherwise return 400). -/
theorem claim10_numeric_conversion_instance :
    (resultStatusCode (lambda_handler ⟨none, none, none⟩ (.ret (.dict_v [])) .notFound 0 ⟨0, 0⟩
        (mkPostEvent (.str_v "\x7b\"message\": \"\", \"max_tokens\": \"abc\"\x7d"))) = some 500
     ∧ resultBodyField (lambda_handler ⟨none, none, none⟩ (.ret (.dict_v [])) .notFound 0 ⟨0, 0⟩
        (mkPostEvent (.str_v "\x7b\"message\": \"\", \"max_tokens\": \"abc\"\x7d"))) "status"
       = some (.str_v "internal_error"))
    ∧ (resultStatusCode (lambda_handler ⟨none, none, none⟩ (.ret (.dict_v [])) .notFound 0 ⟨0, 0⟩
        (mkPostEvent (.str_v "\x7b\"message\": \"\", \"temperature\": \"xy\"\x7d"))) = some 500
     ∧ resultBodyField (lambda_handler ⟨none, none, none⟩ (.ret (.dict_v [])) .notFound 0 ⟨0, 0⟩
        (mkPostEvent (.str_v "\x7b\"message\": \"\", \"temperature\": \"xy\"\x7d"))) "status"
       = some (.str_v "internal_error")) :=
  claim10_numeric_conversion none (.ret (.dict_v [])) .notFound 0 ⟨0, 0⟩
    "\x7b\"message\": \"\", \"max_tokens\": \"abc\"\x7d" "" "abc"
    "\x7b\"message\": \"\", \"temperature\": \"xy\"\x7d" "" "xy" rfl rfl rfl rfl

/-- C8 (counterexample): a POST whose body is the JSON document "hello" — a
value that parses but is not an object — yields a 500 internal-error
response, not the 400 malformed-body response the claim asserts for every
body that does not parse as structured JSON. -/
theorem claim8_counterexample :
    resultStatusCode (lambda_handler ⟨none, none, none⟩ (.ret (.dict_v [])) .notFound 0 ⟨0, 0⟩
      (mkPostEvent (.str_v "\"hello\""))) = some 500
    ∧ resultBodyField (lambda_handler ⟨none, none, none⟩ (.ret (.dict_v [])) .notFound 0 ⟨0, 0⟩
      (mkPostEvent (.str_v "\"hello\""))) "status" = some (.str_v "internal_error") :=
  ⟨rfl, rfl⟩

/-- Witness for C8's amended theorem at an undecodable body, the non-object
JSON document "hello", a null body and an absent body. -/
theorem claim8_body_parse_instance :
    lambda_handler ⟨none, none, none⟩ (.ret (.dict_v [])) .notFound 0 ⟨0, 0⟩
        (mkPostEvent (.str_v "not json")) =
      ⟨.response malformedBodyResponse, [], []⟩
    ∧ (resultStatusCode (lambda_handler ⟨none, none, none⟩ (.ret (.dict_v [])) .notFound 0 ⟨0, 0⟩
          (mkPostEvent .none_v)) = some 500
       ∧ resultBodyField (lambda_handler ⟨none, none, none⟩ (.ret (.dict_v [])) .notFound 0 ⟨0, 0⟩
          (mkPostEvent .none_v)) "status" = some (.str_v "internal_error"))
    ∧ lambda_handler ⟨none, none, none⟩ (.ret (.dict_v [])) .notFound 0 ⟨0, 0⟩
        (.dict_v [("httpMethod", .str_v "POST")]) =
      ⟨.response missingMessageResponse, [], []⟩
    ∧ (resultStatusCode (lambda_handler ⟨none, none, none⟩ (.ret (.dict_v [])) .notFound 0 ⟨0, 0⟩
          (mkPostEvent (.str_v "\"hello\""))) = some 500
       ∧ resultBodyField (lambda_handler ⟨none, none, none⟩ (.ret (.dict_v [])) .notFound 0 ⟨0, 0⟩
          (mkPostEvent (.str_v "\"hello\""))) "status" = some (.str_v "internal_error")) :=
  claim8_body_parse none (.ret (.dict_v [])) .notFound 0 ⟨0, 0⟩
    "not json" "\"hello\"" "Expecting value" (.str_v "hello") rfl rfl rfl
